import Mathlib

set_option maxRecDepth 4000

/-!
Verification development for the `Analizador` CSV sales analyzer
(`src/procesador.py`).  Rows of the parsed CSV file are modelled as
association lists from column name to cell text (the dictionaries produced
by `csv.DictReader`), Python floats are modelled as exact rationals, and
each method of `Analizador` is translated into a Lean function below.
-/

/-- A parsed CSV row: the dictionary produced by `csv.DictReader`,
mapping column names to cell text. -/
abbrev Fila := List (String × String)

/-- First-match lookup in an association list (Python dictionary access;
the dictionaries built here never have duplicate keys). -/
def buscar {β : Type} : List (String × β) → String → Option β
  | [], _ => none
  | (k', v') :: resto, k => if k' = k then some v' else buscar resto k

/-- Python `dict.get(clave)`: `None` when the key is absent. -/
def pyGet (fila : Fila) (clave : String) : Option String :=
  buscar fila clave

/-- Python `dict.get(clave, valorPorDefecto)`. -/
def pyGetD (fila : Fila) (clave valorPorDefecto : String) : String :=
  (buscar fila clave).getD valorPorDefecto

/-- Uppercasing of a string, as Python `str.upper()` on the ASCII
letters that the data uses (`String.mk` over the character list keeps the
function structurally recursive). -/
def aMayusculas (s : String) : String :=
  String.mk (s.toList.map Char.toUpper)

/-- All characters are decimal digits. -/
def sonDigitos (cs : List Char) : Bool :=
  cs.all (fun c => c.isDigit)

/-- Value of a digit string (most significant first). -/
def digitosANat (cs : List Char) : Nat :=
  cs.foldl (fun a c => a * 10 + (c.toNat - 48)) 0

/-- Strip an optional leading sign, returning the sign as `1` or `-1`. -/
def separarSigno : List Char → Int × List Char
  | '-' :: resto => (-1, resto)
  | '+' :: resto => (1, resto)
  | cs => (1, cs)

/-- Unsigned decimal mantissa: digits with an optional single decimal
point, at least one digit in total. -/
def analizarMantisa (cs : List Char) : Option ℚ :=
  let ip := cs.takeWhile (fun c => c ≠ '.')
  let resto := cs.dropWhile (fun c => c ≠ '.')
  match resto with
  | [] => if sonDigitos ip && !ip.isEmpty then some ((digitosANat ip : ℚ)) else none
  | _ :: fp =>
      if sonDigitos ip && sonDigitos fp && !(ip.isEmpty && fp.isEmpty) then
        some ((digitosANat ip : ℚ) + (digitosANat fp : ℚ) / ((10 : ℚ) ^ fp.length))
      else none

/-- The Python builtin `float(str)` on the decimal fragment the data
exercises: optional sign, digits with an optional decimal point, optional
exponent part.  (Whitespace trimming, digit underscores and the `inf`/`nan`
spellings fall outside this fragment.)  Returns `none` where Python raises
`ValueError`. -/
def analizarFloat (s : String) : Option ℚ :=
  let cs := s.toList
  let mant := cs.takeWhile (fun c => c ≠ 'e' && c ≠ 'E')
  let resto := cs.dropWhile (fun c => c ≠ 'e' && c ≠ 'E')
  let sm := separarSigno mant
  match resto with
  | [] => (analizarMantisa sm.2).map (fun m => (sm.1 : ℚ) * m)
  | _ :: ecs =>
      let se := separarSigno ecs
      if sonDigitos se.2 && !se.2.isEmpty then
        (analizarMantisa sm.2).map
          (fun m => (sm.1 : ℚ) * m * (10 : ℚ) ^ (se.1 * (digitosANat se.2 : Int)))
      else none

/-- `valor.replace(',', '.')` from `_limpiar_valor_numerico`: every comma
becomes a period. -/
def comaAPunto (s : String) : String :=
  String.mk (s.toList.map (fun c => if c = ',' then '.' else c))

/-- The designated numeric columns, `Analizador.CAMPOS_NUMERICOS_CLAVE`. -/
def CAMPOS_NUMERICOS_CLAVE : List String :=
  ["TOTAL_VENTAS", "EXPORTACIONES", "IMPORTACIONES", "VENTAS_NETAS_TARIFA_0"]

/-- `Analizador._limpiar_valor_numerico`: `0.0` for an absent value;
otherwise replace commas by periods, parse as a float, return `0.0` on a
parse failure and `max(0.0, num)` on success. -/
def limpiarValorNumerico (valor : Option String) : ℚ :=
  match valor with
  | none => 0
  | some v =>
      match analizarFloat (comaAPunto v) with
      | some num => max 0 num
      | none => 0

/-- One cleaned record, as produced by `Analizador.leer_csv` for one row:
the normalized `PROVINCIA`, the four designated numeric fields rewritten
in place with their cleaned values, and the passthrough `MES` column (the
only passthrough column any query reads). -/
structure Registro where
  provincia : String
  totalVentas : ℚ
  exportaciones : ℚ
  importaciones : ℚ
  ventasNetasTarifa0 : ℚ
  mes : Option String
  deriving DecidableEq

/-- The per-row body of the loop in `Analizador.leer_csv`:
`fila["PROVINCIA"] = fila.get("PROVINCIA", "DESCONOCIDA").upper()` followed
by `fila[campo] = self._limpiar_valor_numerico(fila.get(campo))` for each
designated numeric column. -/
def procesarFila (fila : Fila) : Registro :=
  { provincia := aMayusculas (pyGetD fila "PROVINCIA" "DESCONOCIDA")
    totalVentas := limpiarValorNumerico (pyGet fila "TOTAL_VENTAS")
    exportaciones := limpiarValorNumerico (pyGet fila "EXPORTACIONES")
    importaciones := limpiarValorNumerico (pyGet fila "IMPORTACIONES")
    ventasNetasTarifa0 := limpiarValorNumerico (pyGet fila "VENTAS_NETAS_TARIFA_0")
    mes := pyGet fila "MES" }

/-- The possible fates of the input file in `Analizador.leer_csv`: path
does not exist (`os.path.exists` false), the open/parse raises
(`except Exception`), or the reader yields a list of row dictionaries. -/
inductive EntradaCsv where
  | archivoNoEncontrado : EntradaCsv
  | errorLectura : EntradaCsv
  | filas : List Fila → EntradaCsv

/-- The notices `leer_csv` prints on its observability channel. -/
inductive Aviso where
  | archivoNoEncontrado : Aviso
  | errorLectura : Aviso
  deriving DecidableEq

/-- `Analizador.leer_csv`: a missing file or a read failure yields a
notice and the empty record list (never an exception); otherwise every row
is cleaned and retained, in file order. -/
def leerCsv : EntradaCsv → Option Aviso × List Registro
  | EntradaCsv.archivoNoEncontrado => (some Aviso.archivoNoEncontrado, [])
  | EntradaCsv.errorLectura => (some Aviso.errorLectura, [])
  | EntradaCsv.filas fs => (none, fs.map procesarFila)

/-- `d[clave] += valor` on a `defaultdict(float)`: add to the existing
entry, or append a fresh entry at the end (Python dictionaries iterate in
insertion order). -/
def addToMap : List (String × ℚ) → String → ℚ → List (String × ℚ)
  | [], k, v => [(k, v)]
  | (k', v') :: resto, k, v =>
      if k' = k then (k', v' + v) :: resto
      else (k', v') :: addToMap resto k v

/-- The shared loop shape of the aggregation methods: one pass over the
records; rows satisfying the skip condition `q` are ignored, every other
row adds `g r` to the bucket keyed by `f r`. -/
def agruparSuma {α : Type} (q : α → Prop) [DecidablePred q]
    (f : α → String) (g : α → ℚ) (l : List α) : List (String × ℚ) :=
  l.foldl (fun acc r => if q r then acc else addToMap acc (f r) (g r)) []

/-- `Analizador.ventas_totales_por_provincia`: every record contributes
`TOTAL_VENTAS` to the bucket of its `PROVINCIA` (no skip condition). -/
def ventasTotalesPorProvincia (datos : List Registro) : List (String × ℚ) :=
  agruparSuma (fun _ => False) Registro.provincia Registro.totalVentas datos

/-- `Analizador.ventas_por_provincia`: uppercase the queried name, build
the totals, return the looked-up value or `0.0`. -/
def ventasPorProvincia (datos : List Registro) (nombre : String) : ℚ :=
  (buscar (ventasTotalesPorProvincia datos) (aMayusculas nombre)).getD 0

/-- `Analizador.exportaciones_totales_por_mes`: `mes = fila.get("MES")`;
rows with a falsy month (absent key or empty string) are skipped, the rest
add `EXPORTACIONES` to the bucket of their month. -/
def exportacionesTotalesPorMes (datos : List Registro) : List (String × ℚ) :=
  agruparSuma (fun r => r.mes.getD "" = "") (fun r => r.mes.getD "")
    Registro.exportaciones datos

/-- The grouping pass of `Analizador.provincia_con_mas_importaciones`:
rows with a falsy (empty) `PROVINCIA` are skipped, the rest add
`IMPORTACIONES` to the bucket of their province. -/
def importacionesAgrupadas (datos : List Registro) : List (String × ℚ) :=
  agruparSuma (fun r => r.provincia = "") Registro.provincia
    Registro.importaciones datos

/-- One comparison step of Python
`max(importaciones_por_provincia, key=importaciones_por_provincia.get)`:
a later entry replaces the current best only when strictly greater, so the
first key attaining the maximum wins. -/
def pasoMax (b kv : String × ℚ) : String × ℚ :=
  if kv.2 > b.2 then kv else b

/-- `Analizador.provincia_con_mas_importaciones`: `(None, 0.0)` when the
grouping is empty, otherwise the first key whose summed value is maximal,
paired with that value. -/
def provinciaConMasImportaciones (datos : List Registro) : Option String × ℚ :=
  match importacionesAgrupadas datos with
  | [] => (none, 0)
  | kv :: resto =>
      let mejor := resto.foldl pasoMax kv
      (some mejor.1, mejor.2)

/-- `Analizador.porcentaje_ventas_tarifa_cero`: rows with a falsy
`PROVINCIA` are skipped; per province, `VENTAS_NETAS_TARIFA_0` and
`TOTAL_VENTAS` are summed (the source fills both dictionaries in one pass
over the records, which updates each dictionary exactly as its own pass
does); each grouped province maps to `(ventas_cero / total_ventas) * 100`
when its total is positive and to `0.0` otherwise. -/
def porcentajeVentasTarifaCero (datos : List Registro) : List (String × ℚ) :=
  let ventasCero := agruparSuma (fun r => r.provincia = "") Registro.provincia
    Registro.ventasNetasTarifa0 datos
  let ventasTotales := agruparSuma (fun r => r.provincia = "") Registro.provincia
    Registro.totalVentas datos
  ventasTotales.map (fun kv =>
    (kv.1, if kv.2 > 0 then (buscar ventasCero kv.1).getD 0 / kv.2 * 100 else 0))

/-- The distinct values of a list in order of first appearance (the key
order a Python dictionary ends up with). -/
def primerasApariciones (l : List String) : List String :=
  l.foldl (fun acc a => if a ∈ acc then acc else acc ++ [a]) []

/-- First full entry with the given key (the pair a Python dictionary
iteration would visit). -/
def primerEntrada : List (String × ℚ) → String → Option (String × ℚ)
  | [], _ => none
  | kv :: resto, k => if kv.1 = k then some kv else primerEntrada resto k

/-- The worked totals-by-region example rows from the specification. -/
def ejemploVentas : List Fila :=
  [[("PROVINCIA", "PICHINCHA"), ("TOTAL_VENTAS", "1000.00")],
   [("PROVINCIA", "GUAYAS"), ("TOTAL_VENTAS", "2000.00")],
   [("PROVINCIA", "PICHINCHA"), ("TOTAL_VENTAS", "500.00")],
   [("PROVINCIA", "GUAYAS"), ("TOTAL_VENTAS", "100.00")],
   [("PROVINCIA", "AZUAY"), ("TOTAL_VENTAS", "3000.00")],
   [("PROVINCIA", "IMBABURA"), ("TOTAL_VENTAS", "NO_NUM")]]

/-- The worked exports-by-month example rows from the specification. -/
def ejemploExportaciones : List Fila :=
  [[("PROVINCIA", "PICHINCHA"), ("MES", "01"), ("EXPORTACIONES", "500.00")],
   [("PROVINCIA", "GUAYAS"), ("MES", "02"), ("EXPORTACIONES", "1000.00")],
   [("PROVINCIA", "PICHINCHA"), ("MES", "01"), ("EXPORTACIONES", "200.00")],
   [("PROVINCIA", "GUAYAS"), ("MES", "02"), ("EXPORTACIONES", "-10.00")]]

/-- The mock rows of `test/test_analizador.py` (imports column included). -/
def ejemploImportaciones : List Fila :=
  [[("PROVINCIA", "PICHINCHA"), ("TOTAL_VENTAS", "1000.00"),
    ("EXPORTACIONES", "500.00"), ("IMPORTACIONES", "100.00"), ("MES", "01")],
   [("PROVINCIA", "GUAYAS"), ("TOTAL_VENTAS", "2000.00"),
    ("EXPORTACIONES", "1000.00"), ("IMPORTACIONES", "500.00"), ("MES", "02")],
   [("PROVINCIA", "PICHINCHA"), ("TOTAL_VENTAS", "500.00"),
    ("EXPORTACIONES", "200.00"), ("IMPORTACIONES", "50.00"), ("MES", "01")],
   [("PROVINCIA", "GUAYAS"), ("TOTAL_VENTAS", "100.00"),
    ("EXPORTACIONES", "-10.00"), ("IMPORTACIONES", "800.00"), ("MES", "02")],
   [("PROVINCIA", "AZUAY"), ("TOTAL_VENTAS", "3000.00"),
    ("EXPORTACIONES", "0.00"), ("IMPORTACIONES", "1000.00"), ("MES", "03")],
   [("PROVINCIA", "IMBABURA"), ("TOTAL_VENTAS", "NO_NUM"),
    ("EXPORTACIONES", "0.00"), ("IMPORTACIONES", "0.00"), ("MES", "04")]]

/-- A province whose cleaned total-sales sum is zero (an unparsable
total), exercising the division-guard policy. -/
def ejemploTarifaCero : List Fila :=
  [[("PROVINCIA", "LOJA"), ("TOTAL_VENTAS", "NO_NUM"),
    ("VENTAS_NETAS_TARIFA_0", "5.00")]]

/-- The records loaded from `ejemploTarifaCero`. -/
def datosTarifaCero : List Registro :=
  (leerCsv (EntradaCsv.filas ejemploTarifaCero)).2

/-- A row whose region column is present but empty, exercising the
asymmetric treatment of the empty-string province. -/
def ejemploProvinciaVacia : List Fila :=
  [[("PROVINCIA", ""), ("TOTAL_VENTAS", "100.00"),
    ("IMPORTACIONES", "7.00"), ("VENTAS_NETAS_TARIFA_0", "3.00")]]


/-! ### Lemmas about the insertion-ordered accumulation map -/

theorem buscar_addToMap_self (m : List (String × ℚ)) (k : String) (v : ℚ) :
    buscar (addToMap m k v) k = some ((buscar m k).getD 0 + v) := by
  induction m with
  | nil => simp [addToMap, buscar]
  | cons kv resto ih =>
      obtain ⟨k', v'⟩ := kv
      by_cases h : k' = k
      · subst h
        simp [addToMap, buscar]
      · simp [addToMap, buscar, h, ih]

theorem buscar_addToMap_ne (m : List (String × ℚ)) (k : String) (v : ℚ)
    (k₀ : String) (h : k₀ ≠ k) :
    buscar (addToMap m k v) k₀ = buscar m k₀ := by
  induction m with
  | nil => simp [addToMap, buscar, Ne.symm h]
  | cons kv resto ih =>
      obtain ⟨k', v'⟩ := kv
      by_cases hk : k' = k
      · subst hk
        simp [addToMap, buscar, Ne.symm h]
      · have hpaso : addToMap ((k', v') :: resto) k v = (k', v') :: addToMap resto k v := by
          simp [addToMap, hk]
        rw [hpaso]
        by_cases hk₀ : k' = k₀
        · subst hk₀
          simp [buscar]
        · simp [buscar, hk₀, ih]

theorem claves_addToMap (m : List (String × ℚ)) (k : String) (v : ℚ) :
    (addToMap m k v).map Prod.fst
      = if k ∈ m.map Prod.fst then m.map Prod.fst else m.map Prod.fst ++ [k] := by
  induction m with
  | nil => simp [addToMap]
  | cons kv resto ih =>
      obtain ⟨k', v'⟩ := kv
      by_cases h : k' = k
      · subst h
        simp [addToMap]
      · have hNe : k ≠ k' := Ne.symm h
        simp [addToMap, h, ih, hNe]
        by_cases hm : k ∈ resto.map Prod.fst <;> simp [hm, hNe]

theorem buscar_isSome_iff (m : List (String × ℚ)) (k : String) :
    (buscar m k).isSome ↔ k ∈ m.map Prod.fst := by
  induction m with
  | nil => simp [buscar]
  | cons kv resto ih =>
      obtain ⟨k', v'⟩ := kv
      by_cases h : k' = k
      · subst h
        simp [buscar]
      · simp [buscar, h, ih, Ne.symm h]

theorem mem_claves_addToMap (m : List (String × ℚ)) (k : String) (v : ℚ)
    (k₀ : String) :
    k₀ ∈ (addToMap m k v).map Prod.fst ↔ k₀ ∈ m.map Prod.fst ∨ k₀ = k := by
  rw [claves_addToMap]
  by_cases h : k ∈ m.map Prod.fst
  · simp only [if_pos h]
    constructor
    · exact Or.inl
    · rintro (hm | rfl)
      · exact hm
      · exact h
  · simp [if_neg h, List.mem_append]

theorem buscar_foldl_agrupar {α : Type} (q : α → Prop) [DecidablePred q]
    (f : α → String) (g : α → ℚ) (l : List α) :
    ∀ (m : List (String × ℚ)) (k : String),
      (buscar (l.foldl (fun acc r => if q r then acc else addToMap acc (f r) (g r)) m) k).getD 0
        = (buscar m k).getD 0
          + ((l.filter (fun r => decide (¬ q r ∧ f r = k))).map g).sum := by
  induction l with
  | nil => intro m k; simp
  | cons r resto ih =>
      intro m k
      by_cases hq : q r
      · simp [List.foldl_cons, hq, ih]
      · by_cases hk : f r = k
        · subst hk
          simp only [List.foldl_cons, if_neg hq]
          rw [ih, buscar_addToMap_self]
          simp [hq, add_assoc]
        · simp only [List.foldl_cons, if_neg hq]
          rw [ih, buscar_addToMap_ne _ _ _ _ (fun hh => hk hh.symm)]
          simp [hq, hk]

theorem mem_claves_foldl_agrupar {α : Type} (q : α → Prop) [DecidablePred q]
    (f : α → String) (g : α → ℚ) (l : List α) :
    ∀ (m : List (String × ℚ)) (k : String),
      k ∈ (l.foldl (fun acc r => if q r then acc else addToMap acc (f r) (g r)) m).map Prod.fst
        ↔ k ∈ m.map Prod.fst ∨ ∃ r ∈ l, ¬ q r ∧ f r = k := by
  induction l with
  | nil => intro m k; simp
  | cons r resto ih =>
      intro m k
      by_cases hq : q r
      · simp [List.foldl_cons, hq, ih]
      · simp only [List.foldl_cons, if_neg hq]
        rw [ih, mem_claves_addToMap]
        constructor
        · rintro ((hm | rfl) | hresto)
          · exact Or.inl hm
          · exact Or.inr ⟨r, List.mem_cons_self _ _, hq, rfl⟩
          · obtain ⟨r', hr', hqr', hfr'⟩ := hresto
            exact Or.inr ⟨r', List.mem_cons_of_mem _ hr', hqr', hfr'⟩
        · rintro (hm | ⟨r', hr', hqr', hfr'⟩)
          · exact Or.inl (Or.inl hm)
          · rcases List.mem_cons.mp hr' with rfl | hr'
            · exact Or.inl (Or.inr hfr'.symm)
            · exact Or.inr ⟨r', hr', hqr', hfr'⟩

theorem claves_foldl_agrupar {α : Type} (q : α → Prop) [DecidablePred q]
    (f : α → String) (g : α → ℚ) (l : List α) :
    ∀ m : List (String × ℚ),
      (l.foldl (fun acc r => if q r then acc else addToMap acc (f r) (g r)) m).map Prod.fst
        = ((l.filter (fun r => decide (¬ q r))).map f).foldl
            (fun acc a => if a ∈ acc then acc else acc ++ [a]) (m.map Prod.fst) := by
  induction l with
  | nil => intro m; simp
  | cons r resto ih =>
      intro m
      by_cases hq : q r
      · simp [List.foldl_cons, hq, ih]
      · simp only [List.foldl_cons, if_neg hq]
        rw [ih]
        have hfil : (r :: resto).filter (fun r => decide (¬ q r))
            = r :: resto.filter (fun r => decide (¬ q r)) := by
          simp [List.filter_cons, hq]
        rw [hfil]
        simp only [List.map_cons, List.foldl_cons]
        rw [claves_addToMap]

theorem buscar_agruparSuma {α : Type} (q : α → Prop) [DecidablePred q]
    (f : α → String) (g : α → ℚ) (l : List α) (k : String) :
    (buscar (agruparSuma q f g l) k).getD 0
      = ((l.filter (fun r => decide (¬ q r ∧ f r = k))).map g).sum := by
  have h := buscar_foldl_agrupar q f g l [] k
  simpa [agruparSuma, buscar] using h

theorem mem_claves_agruparSuma {α : Type} (q : α → Prop) [DecidablePred q]
    (f : α → String) (g : α → ℚ) (l : List α) (k : String) :
    k ∈ (agruparSuma q f g l).map Prod.fst ↔ ∃ r ∈ l, ¬ q r ∧ f r = k := by
  have h := mem_claves_foldl_agrupar q f g l [] k
  simpa [agruparSuma] using h

theorem claves_agruparSuma {α : Type} (q : α → Prop) [DecidablePred q]
    (f : α → String) (g : α → ℚ) (l : List α) :
    (agruparSuma q f g l).map Prod.fst
      = primerasApariciones ((l.filter (fun r => decide (¬ q r))).map f) := by
  have h := claves_foldl_agrupar q f g l []
  simpa [agruparSuma, primerasApariciones] using h

theorem nodup_foldl_primeras :
    ∀ (l : List String) (acc : List String), acc.Nodup →
      (l.foldl (fun acc a => if a ∈ acc then acc else acc ++ [a]) acc).Nodup := by
  intro l
  induction l with
  | nil => intro acc h; simpa using h
  | cons a resto ih =>
      intro acc h
      by_cases ha : a ∈ acc
      · simp only [List.foldl_cons, if_pos ha]
        exact ih acc h
      · simp only [List.foldl_cons, if_neg ha]
        refine ih _ ?_
        simp [List.nodup_append, h, ha]

theorem nodup_primerasApariciones (l : List String) :
    (primerasApariciones l).Nodup :=
  nodup_foldl_primeras l [] (by simp)

theorem nodup_claves_agruparSuma {α : Type} (q : α → Prop) [DecidablePred q]
    (f : α → String) (g : α → ℚ) (l : List α) :
    ((agruparSuma q f g l).map Prod.fst).Nodup := by
  rw [claves_agruparSuma]
  exact nodup_primerasApariciones _

theorem buscar_de_mem (l : List (String × ℚ)) (kv : String × ℚ)
    (hmem : kv ∈ l) (hnd : (l.map Prod.fst).Nodup) : buscar l kv.1 = some kv.2 := by
  induction l with
  | nil => cases hmem
  | cons a resto ih =>
      rcases List.mem_cons.mp hmem with h | h
      · subst h
        simp [buscar]
      · have h1 : a.1 ≠ kv.1 := by
          intro hh
          have hk : kv.1 ∈ resto.map Prod.fst := List.mem_map_of_mem Prod.fst h
          rw [List.map_cons, List.nodup_cons] at hnd
          exact hnd.1 (hh ▸ hk)
        have hnd' : (resto.map Prod.fst).Nodup := by
          rw [List.map_cons, List.nodup_cons] at hnd
          exact hnd.2
        obtain ⟨a1, a2⟩ := a
        simp only [buscar, if_neg h1]
        exact ih h hnd'

theorem foldl_pasoMax_division :
    ∀ (resto : List (String × ℚ)) (b mejor : String × ℚ),
      resto.foldl pasoMax b = mejor →
      b.2 ≤ mejor.2 ∧
      ∃ l₁ l₂, b :: resto = l₁ ++ mejor :: l₂
        ∧ (∀ kv ∈ l₁, kv.2 < mejor.2) ∧ (∀ kv ∈ l₂, kv.2 ≤ mejor.2) := by
  intro resto
  induction resto with
  | nil =>
      intro b mejor h
      simp only [List.foldl_nil] at h
      subst h
      exact ⟨le_refl _, [], [], rfl, by simp, by simp⟩
  | cons c resto ih =>
      intro b mejor h
      rw [List.foldl_cons] at h
      by_cases hc : c.2 > b.2
      · rw [show pasoMax b c = c from if_pos hc] at h
        obtain ⟨hle, l₁, l₂, hsplit, h₁, h₂⟩ := ih c mejor h
        refine ⟨le_of_lt (lt_of_lt_of_le hc hle), b :: l₁, l₂, ?_, ?_, h₂⟩
        · rw [List.cons_append, hsplit]
        · intro kv hkv
          rcases List.mem_cons.mp hkv with rfl | hkv
          · exact lt_of_lt_of_le hc hle
          · exact h₁ kv hkv
      · rw [show pasoMax b c = b from if_neg hc] at h
        obtain ⟨hle, l₁, l₂, hsplit, h₁, h₂⟩ := ih b mejor h
        have hcb : c.2 ≤ b.2 := le_of_not_lt hc
        cases l₁ with
        | nil =>
            simp only [List.nil_append] at hsplit
            have hb : b = mejor := (List.cons.inj hsplit).1
            have hr : resto = l₂ := (List.cons.inj hsplit).2
            refine ⟨hle, [], c :: l₂, ?_, by simp, ?_⟩
            · rw [List.nil_append, ← hb, ← hr]
            · intro kv hkv
              rcases List.mem_cons.mp hkv with rfl | hkv
              · exact hcb.trans (le_of_eq (congrArg Prod.snd hb))
              · exact h₂ kv hkv
        | cons a l₁' =>
            rw [List.cons_append] at hsplit
            have hba : b = a := (List.cons.inj hsplit).1
            have hrs : resto = l₁' ++ mejor :: l₂ := (List.cons.inj hsplit).2
            have hbm : b.2 < mejor.2 := by
              have := h₁ a (List.mem_cons_self _ _)
              rw [hba]
              exact this
            refine ⟨hle, b :: c :: l₁', l₂, ?_, ?_, h₂⟩
            · rw [hrs]
              simp [List.cons_append]
            · intro kv hkv
              rcases List.mem_cons.mp hkv with rfl | hkv
              · exact hbm
              · rcases List.mem_cons.mp hkv with rfl | hkv
                · exact lt_of_le_of_lt hcb hbm
                · exact h₁ kv (List.mem_cons_of_mem _ hkv)

theorem mejor_mem (resto : List (String × ℚ)) (b : String × ℚ) :
    resto.foldl pasoMax b ∈ b :: resto := by
  obtain ⟨-, l₁, l₂, hsplit, -, -⟩ :=
    foldl_pasoMax_division resto b (resto.foldl pasoMax b) rfl
  rw [hsplit]
  exact List.mem_append_right _ (List.mem_cons_self _ _)

theorem buscar_eq_primerEntrada (l : List (String × ℚ)) (k : String) :
    buscar l k = (primerEntrada l k).map Prod.snd := by
  induction l with
  | nil => simp [buscar, primerEntrada]
  | cons kv resto ih =>
      obtain ⟨k', v'⟩ := kv
      by_cases h : k' = k <;> simp [buscar, primerEntrada, h, ih]

theorem primerEntrada_clave (l : List (String × ℚ)) (k : String)
    (kv : String × ℚ) (h : primerEntrada l k = some kv) : kv.1 = k := by
  induction l with
  | nil => simp [primerEntrada] at h
  | cons a resto ih =>
      by_cases ha : a.1 = k
      · simp only [primerEntrada, if_pos ha] at h
        obtain rfl : a = kv := Option.some_inj.mp h
        exact ha
      · simp only [primerEntrada, if_neg ha] at h
        exact ih h

theorem primerEntrada_map (f : String × ℚ → ℚ) (l : List (String × ℚ)) (k : String) :
    primerEntrada (l.map (fun kv => (kv.1, f kv))) k
      = (primerEntrada l k).map (fun kv => (kv.1, f kv)) := by
  induction l with
  | nil => simp [primerEntrada]
  | cons a resto ih =>
      by_cases ha : a.1 = k <;> simp [primerEntrada, ha, ih]

theorem primerEntrada_isSome_iff (l : List (String × ℚ)) (k : String) :
    (primerEntrada l k).isSome ↔ k ∈ l.map Prod.fst := by
  rw [← buscar_isSome_iff, buscar_eq_primerEntrada]
  cases primerEntrada l k <;> simp

theorem limpiarValorNumerico_noneg (v : Option String) :
    0 ≤ limpiarValorNumerico v := by
  cases v with
  | none => simp [limpiarValorNumerico]
  | some s =>
      cases h : analizarFloat (comaAPunto s) with
      | none => simp [limpiarValorNumerico, h]
      | some q => simp [limpiarValorNumerico, h, le_max_left]

theorem comaAPunto_idem (s : String) :
    comaAPunto (comaAPunto s) = comaAPunto s := by
  have hc : ∀ c : Char,
      (if (if c = ',' then '.' else c) = ',' then '.' else if c = ',' then '.' else c)
        = if c = ',' then '.' else c := by
    intro c
    by_cases h : c = ',' <;> simp [h]
  simp only [comaAPunto, String.toList, List.map_map, Function.comp_def, hc]

/-! ### Specialized lemmas for each aggregation -/

theorem getD_ventasTotales (datos : List Registro) (k : String) :
    (buscar (ventasTotalesPorProvincia datos) k).getD 0
      = ((datos.filter (fun r => decide (r.provincia = k))).map Registro.totalVentas).sum := by
  have h := buscar_agruparSuma (fun _ => False) Registro.provincia
    Registro.totalVentas datos k
  simpa [ventasTotalesPorProvincia] using h

theorem isSome_ventasTotales (datos : List Registro) (k : String) :
    (buscar (ventasTotalesPorProvincia datos) k).isSome
      ↔ k ∈ datos.map Registro.provincia := by
  rw [buscar_isSome_iff, ventasTotalesPorProvincia, mem_claves_agruparSuma]
  simp [List.mem_map]

theorem getD_importacionesAgrupadas (datos : List Registro) (k : String) :
    (buscar (importacionesAgrupadas datos) k).getD 0
      = ((datos.filter (fun r => decide (¬ r.provincia = "" ∧ r.provincia = k))).map
          Registro.importaciones).sum := by
  have h := buscar_agruparSuma (fun r => r.provincia = "") Registro.provincia
    Registro.importaciones datos k
  simpa [importacionesAgrupadas] using h

theorem mem_claves_importacionesAgrupadas (datos : List Registro) (k : String) :
    k ∈ (importacionesAgrupadas datos).map Prod.fst
      ↔ ∃ r ∈ datos, ¬ r.provincia = "" ∧ r.provincia = k := by
  rw [importacionesAgrupadas, mem_claves_agruparSuma]

theorem claves_importacionesAgrupadas (datos : List Registro) :
    (importacionesAgrupadas datos).map Prod.fst
      = primerasApariciones
          ((datos.filter (fun r => decide (¬ r.provincia = ""))).map Registro.provincia) := by
  rw [importacionesAgrupadas, claves_agruparSuma]

theorem getD_exportacionesPorMes (datos : List Registro) (k : String) :
    (buscar (exportacionesTotalesPorMes datos) k).getD 0
      = ((datos.filter (fun r => decide (¬ r.mes.getD "" = "" ∧ r.mes.getD "" = k))).map
          Registro.exportaciones).sum := by
  have h := buscar_agruparSuma (fun r => r.mes.getD "" = "") (fun r => r.mes.getD "")
    Registro.exportaciones datos k
  simpa [exportacionesTotalesPorMes] using h

theorem mem_claves_exportacionesPorMes (datos : List Registro) (k : String) :
    k ∈ (exportacionesTotalesPorMes datos).map Prod.fst
      ↔ ∃ r ∈ datos, ¬ r.mes.getD "" = "" ∧ r.mes.getD "" = k := by
  rw [exportacionesTotalesPorMes, mem_claves_agruparSuma]

/-! ### Claim theorems -/

/-- Claim C1: every record the loader retains carries the four designated
numeric fields (present by construction of `Registro`) with values that
are at least `0.0`, and no input row is ever dropped over a malformed or
missing numeric field: the loader produces exactly one record per row. -/
theorem registros_retenidos_no_negativos :
    (∀ (e : EntradaCsv) (r : Registro), r ∈ (leerCsv e).2 →
        0 ≤ r.totalVentas ∧ 0 ≤ r.exportaciones ∧ 0 ≤ r.importaciones ∧
          0 ≤ r.ventasNetasTarifa0) ∧
    (∀ fs : List Fila, ((leerCsv (EntradaCsv.filas fs)).2).length = fs.length) := by
  constructor
  · intro e r hr
    cases e with
    | archivoNoEncontrado => simp [leerCsv] at hr
    | errorLectura => simp [leerCsv] at hr
    | filas fs =>
        simp only [leerCsv] at hr
        obtain ⟨fila, -, rfl⟩ := List.mem_map.mp hr
        exact ⟨limpiarValorNumerico_noneg _, limpiarValorNumerico_noneg _,
          limpiarValorNumerico_noneg _, limpiarValorNumerico_noneg _⟩
  · intro fs
    simp [leerCsv]

/-- Witness for C1 at concrete inputs: the empty row is retained with all
four cleaned fields at `0`, and the six worked-example rows load to six
records. -/
theorem registros_retenidos_no_negativos_testigo :
    (0 ≤ (procesarFila []).totalVentas ∧ 0 ≤ (procesarFila []).exportaciones ∧
      0 ≤ (procesarFila []).importaciones ∧ 0 ≤ (procesarFila []).ventasNetasTarifa0) ∧
    ((leerCsv (EntradaCsv.filas ejemploVentas)).2).length = 6 :=
  ⟨registros_retenidos_no_negativos.1 (EntradaCsv.filas [[]]) (procesarFila [])
      (by with_unfolding_all decide),
   registros_retenidos_no_negativos.2 ejemploVentas⟩

/-- Claim C2: the numeric cleaning function returns `0.0` for an absent
value; otherwise it replaces every comma with a period, parses the result,
returns `0.0` on parse failure and `max 0.0` of the parsed value on
success; consequently a comma-decimal input cleans exactly like its
dot-decimal equivalent. -/
theorem limpiar_valor_numerico_correcto :
    limpiarValorNumerico none = 0 ∧
    (∀ s : String, analizarFloat (comaAPunto s) = none →
        limpiarValorNumerico (some s) = 0) ∧
    (∀ (s : String) (q : ℚ), analizarFloat (comaAPunto s) = some q →
        limpiarValorNumerico (some s) = max 0 q) ∧
    (∀ s : String,
        limpiarValorNumerico (some s) = limpiarValorNumerico (some (comaAPunto s))) := by
  refine ⟨rfl, ?_, ?_, ?_⟩
  · intro s h
    simp [limpiarValorNumerico, h]
  · intro s q h
    simp [limpiarValorNumerico, h]
  · intro s
    simp [limpiarValorNumerico, comaAPunto_idem]

/-- Witness for C2: the unparsable `NO_NUM` cleans to `0`, a negative
value is clamped through `max 0 (-10)`, and `100,5` cleans like `100.5`. -/
theorem limpiar_valor_numerico_correcto_testigo :
    limpiarValorNumerico (some "NO_NUM") = 0 ∧
    limpiarValorNumerico (some "-10.00") = max 0 (-10) ∧
    limpiarValorNumerico (some "100,5") = limpiarValorNumerico (some "100.5") :=
  ⟨limpiar_valor_numerico_correcto.2.1 "NO_NUM" (by with_unfolding_all decide),
   limpiar_valor_numerico_correcto.2.2.1 "-10.00" (-10) (by with_unfolding_all decide),
   by
     have h := limpiar_valor_numerico_correcto.2.2.2 "100,5"
     have hcp : comaAPunto "100,5" = "100.5" := by with_unfolding_all decide
     rw [hcp] at h
     exact h⟩

/-- Claim C8: a missing file and a read failure both produce a notice and
the empty record list; the loader never propagates a failure. -/
theorem leer_csv_nunca_falla :
    leerCsv EntradaCsv.archivoNoEncontrado = (some Aviso.archivoNoEncontrado, []) ∧
    leerCsv EntradaCsv.errorLectura = (some Aviso.errorLectura, []) :=
  ⟨rfl, rfl⟩

/-- Claim C9: the region field is read with default `DESCONOCIDA` when
absent and upper-cased; every row is retained (one record per row), and
every retained region value is the uppercasing of some string. -/
theorem provincia_normalizada_correcto :
    (∀ fila : Fila, buscar fila "PROVINCIA" = none →
        (procesarFila fila).provincia = "DESCONOCIDA") ∧
    (∀ (fila : Fila) (s : String), buscar fila "PROVINCIA" = some s →
        (procesarFila fila).provincia = aMayusculas s) ∧
    (∀ fs : List Fila, (leerCsv (EntradaCsv.filas fs)).2 = fs.map procesarFila) ∧
    (∀ fila : Fila, ∃ s : String, (procesarFila fila).provincia = aMayusculas s) := by
  refine ⟨?_, ?_, fun fs => rfl, ?_⟩
  · intro fila h
    have hd : pyGetD fila "PROVINCIA" "DESCONOCIDA" = "DESCONOCIDA" := by
      simp [pyGetD, h]
    simp only [procesarFila, hd]
    decide
  · intro fila s h
    have hd : pyGetD fila "PROVINCIA" "DESCONOCIDA" = s := by
      simp [pyGetD, h]
    simp [procesarFila, hd]
  · intro fila
    exact ⟨pyGetD fila "PROVINCIA" "DESCONOCIDA", rfl⟩

/-- Witness for C9: a row without a region column is retained under the
sentinel, and a lower-case region is upper-cased. -/
theorem provincia_normalizada_correcto_testigo :
    (procesarFila []).provincia = "DESCONOCIDA" ∧
    (procesarFila [("PROVINCIA", "guayas")]).provincia = aMayusculas "guayas" :=
  ⟨provincia_normalizada_correcto.1 [] rfl,
   provincia_normalizada_correcto.2.1 [("PROVINCIA", "guayas")] "guayas"
     (by with_unfolding_all decide)⟩

/-- Claim C3: region totals group every loaded record by region and sum
the total-sales field; a region is a key exactly when some record carries
it; on the specification's worked example the totals are PICHINCHA 1500,
GUAYAS 2100, AZUAY 3000 and IMBABURA 0 (the invalid value cleans to 0 and
IMBABURA still appears). -/
theorem ventas_totales_por_provincia_correcto :
    (∀ (datos : List Registro) (k : String),
        (buscar (ventasTotalesPorProvincia datos) k).getD 0
          = ((datos.filter (fun r => decide (r.provincia = k))).map
              Registro.totalVentas).sum) ∧
    (∀ (datos : List Registro) (k : String),
        ((buscar (ventasTotalesPorProvincia datos) k).isSome
          ↔ k ∈ datos.map Registro.provincia)) ∧
    ventasTotalesPorProvincia ((leerCsv (EntradaCsv.filas ejemploVentas)).2)
      = [("PICHINCHA", 1500), ("GUAYAS", 2100), ("AZUAY", 3000), ("IMBABURA", 0)] :=
  ⟨getD_ventasTotales, isSome_ventasTotales, by with_unfolding_all rfl⟩

/-- Claim C5: the single-region query returns exactly the totals-mapping
entry of the upper-cased name, `0.0` when that key is absent, and in
particular `0.0` for any region not present in the data. -/
theorem ventas_por_provincia_coincide :
    (∀ (datos : List Registro) (nombre : String) (v : ℚ),
        buscar (ventasTotalesPorProvincia datos) (aMayusculas nombre) = some v →
        ventasPorProvincia datos nombre = v) ∧
    (∀ (datos : List Registro) (nombre : String),
        buscar (ventasTotalesPorProvincia datos) (aMayusculas nombre) = none →
        ventasPorProvincia datos nombre = 0) ∧
    (∀ (datos : List Registro) (nombre : String),
        aMayusculas nombre ∉ datos.map Registro.provincia →
        ventasPorProvincia datos nombre = 0) := by
  refine ⟨?_, ?_, ?_⟩
  · intro datos nombre v h
    simp [ventasPorProvincia, h]
  · intro datos nombre h
    simp [ventasPorProvincia, h]
  · intro datos nombre h
    have hs : ¬ (buscar (ventasTotalesPorProvincia datos) (aMayusculas nombre)).isSome := by
      rw [isSome_ventasTotales]
      exact h
    rw [Option.not_isSome_iff_eq_none] at hs
    simp [ventasPorProvincia, hs]

/-- Witness for C5: querying a region absent from the worked example
returns exactly `0`. -/
theorem ventas_por_provincia_coincide_testigo :
    ventasPorProvincia ((leerCsv (EntradaCsv.filas ejemploVentas)).2)
      "NARNIA_NO_EXISTE" = 0 :=
  ventas_por_provincia_coincide.2.2 ((leerCsv (EntradaCsv.filas ejemploVentas)).2)
    "NARNIA_NO_EXISTE" (by with_unfolding_all decide)

/-- Claim C7: exports-by-month sums the exports field per month code, and
a record with an absent or empty month contributes to no bucket at all
(there is no empty-month key); on the worked example the result is
month 01 at 700 and month 02 at 1000 (the negative export cleans to 0). -/
theorem exportaciones_por_mes_correcto :
    (∀ (datos : List Registro) (k : String), k ≠ "" →
        (buscar (exportacionesTotalesPorMes datos) k).getD 0
          = ((datos.filter (fun r => decide (r.mes = some k))).map
              Registro.exportaciones).sum) ∧
    (∀ datos : List Registro, buscar (exportacionesTotalesPorMes datos) "" = none) ∧
    (∀ (datos : List Registro) (k : String),
        ((buscar (exportacionesTotalesPorMes datos) k).isSome
          ↔ (k ≠ "" ∧ some k ∈ datos.map Registro.mes))) ∧
    exportacionesTotalesPorMes ((leerCsv (EntradaCsv.filas ejemploExportaciones)).2)
      = [("01", 700), ("02", 1000)] := by
  refine ⟨?_, ?_, ?_, by with_unfolding_all rfl⟩
  · intro datos k hk
    rw [getD_exportacionesPorMes]
    have hfil : datos.filter
          (fun r => decide (¬ r.mes.getD "" = "" ∧ r.mes.getD "" = k))
        = datos.filter (fun r => decide (r.mes = some k)) := by
      apply List.filter_congr
      intro r hr
      cases hm : r.mes with
      | none => simp [hm, Ne.symm hk]
      | some m =>
          by_cases hmk : m = k
          · simp [hm, hmk, hk]
          · simp [hm, hmk]
    rw [hfil]
  · intro datos
    apply Option.not_isSome_iff_eq_none.mp
    rw [buscar_isSome_iff, mem_claves_exportacionesPorMes]
    rintro ⟨r, hr, hne, hk⟩
    exact hne hk
  · intro datos k
    rw [buscar_isSome_iff, mem_claves_exportacionesPorMes]
    constructor
    · rintro ⟨r, hr, hne, hkk⟩
      cases hm : r.mes with
      | none =>
          rw [hm] at hne
          simp at hne
      | some m =>
          rw [hm] at hne hkk
          simp at hne hkk
          subst hkk
          exact ⟨hne, List.mem_map.mpr ⟨r, hr, hm⟩⟩
    · rintro ⟨hk, hmem⟩
      obtain ⟨r, hr, hm⟩ := List.mem_map.mp hmem
      exact ⟨r, hr, by simp [hm, hk], by simp [hm]⟩

/-- Witness for C7: the month-01 bucket of the worked example equals the
sum of the exports of the month-01 records. -/
theorem exportaciones_por_mes_correcto_testigo :
    (buscar (exportacionesTotalesPorMes
        ((leerCsv (EntradaCsv.filas ejemploExportaciones)).2)) "01").getD 0
      = ((((leerCsv (EntradaCsv.filas ejemploExportaciones)).2).filter
          (fun r => decide (r.mes = some "01"))).map Registro.exportaciones).sum :=
  exportaciones_por_mes_correcto.1 _ "01" (by decide)

/-- Claim C4: the max-imports query groups the records with a non-empty
region, summing imports per region in first-seen key order; an empty
grouping (exactly: every record has an empty region) yields `(none, 0)`;
a successful result `(some p, v)` names a grouped region whose summed
value `v` is maximal, with every earlier key strictly below `v` (first
key wins ties); on the mock data the result is GUAYAS at 1300. -/
theorem provincia_con_mas_importaciones_correcto :
    (∀ (datos : List Registro) (k : String),
        (buscar (importacionesAgrupadas datos) k).getD 0
          = ((datos.filter (fun r => decide (¬ r.provincia = "" ∧ r.provincia = k))).map
              Registro.importaciones).sum) ∧
    (∀ datos : List Registro,
        (importacionesAgrupadas datos).map Prod.fst
          = primerasApariciones
              ((datos.filter (fun r => decide (¬ r.provincia = ""))).map
                Registro.provincia)) ∧
    (∀ datos : List Registro,
        (importacionesAgrupadas datos = [] ↔ ∀ r ∈ datos, r.provincia = "")) ∧
    (∀ datos : List Registro, importacionesAgrupadas datos = [] →
        provinciaConMasImportaciones datos = (none, 0)) ∧
    (∀ (datos : List Registro) (p : String) (v : ℚ),
        provinciaConMasImportaciones datos = (some p, v) →
        buscar (importacionesAgrupadas datos) p = some v ∧
        ∃ l₁ l₂, importacionesAgrupadas datos = l₁ ++ (p, v) :: l₂
          ∧ (∀ kv ∈ l₁, kv.2 < v) ∧ (∀ kv ∈ l₂, kv.2 ≤ v)) ∧
    provinciaConMasImportaciones ((leerCsv (EntradaCsv.filas ejemploImportaciones)).2)
      = (some "GUAYAS", 1300) := by
  refine ⟨getD_importacionesAgrupadas, claves_importacionesAgrupadas, ?_, ?_, ?_,
    by with_unfolding_all decide⟩
  · intro datos
    constructor
    · intro h r hr
      by_contra hne
      have hmem : r.provincia ∈ (importacionesAgrupadas datos).map Prod.fst :=
        (mem_claves_importacionesAgrupadas datos r.provincia).mpr ⟨r, hr, hne, rfl⟩
      rw [h] at hmem
      simp at hmem
    · intro h
      have hk : (importacionesAgrupadas datos).map Prod.fst = [] := by
        by_contra hne
        obtain ⟨k, hkmem⟩ := List.exists_mem_of_ne_nil _ hne
        obtain ⟨r, hr, hne', hfk⟩ :=
          (mem_claves_importacionesAgrupadas datos k).mp hkmem
        exact hne' (h r hr)
      exact List.map_eq_nil_iff.mp hk
  · intro datos h
    simp [provinciaConMasImportaciones, h]
  · intro datos p v h
    rcases himp : importacionesAgrupadas datos with _ | ⟨kv, resto⟩
    · rw [provinciaConMasImportaciones, himp] at h
      simp at h
    · rw [provinciaConMasImportaciones, himp] at h
      have h1 : (resto.foldl pasoMax kv).1 = p := by
        have := congrArg Prod.fst h
        simpa using this
      have h2 : (resto.foldl pasoMax kv).2 = v := by
        have := congrArg Prod.snd h
        simpa using this
      have hm : resto.foldl pasoMax kv = (p, v) := by
        rw [← h1, ← h2]
      obtain ⟨hle, l₁, l₂, hsplit, hlt, hle2⟩ :=
        foldl_pasoMax_division resto kv (p, v) hm
      refine ⟨?_, l₁, l₂, hsplit, hlt, hle2⟩
      have hmem : (p, v) ∈ kv :: resto := by
        rw [hsplit]
        exact List.mem_append_right _ (List.mem_cons_self _ _)
      have hnd : (((kv :: resto) : List (String × ℚ)).map Prod.fst).Nodup := by
        rw [← himp, importacionesAgrupadas]
        exact nodup_claves_agruparSuma _ _ _ _
      exact buscar_de_mem _ (p, v) hmem hnd

/-- Witness for C4: the empty dataset yields the no-result pair, and on
the mock data the winning key GUAYAS is looked up at its summed value. -/
theorem provincia_con_mas_importaciones_correcto_testigo :
    provinciaConMasImportaciones [] = (none, 0) ∧
    buscar (importacionesAgrupadas
        ((leerCsv (EntradaCsv.filas ejemploImportaciones)).2)) "GUAYAS"
      = some 1300 :=
  ⟨provincia_con_mas_importaciones_correcto.2.2.2.1 [] rfl,
   (provincia_con_mas_importaciones_correcto.2.2.2.2.1 _ "GUAYAS" 1300
      (by with_unfolding_all decide)).1⟩

theorem claves_map_reetiqueta (f : String × ℚ → ℚ) (l : List (String × ℚ)) :
    (l.map (fun kv => (kv.1, f kv))).map Prod.fst = l.map Prod.fst := by
  simp [List.map_map, Function.comp_def]

theorem porcentaje_eq (datos : List Registro) :
    porcentajeVentasTarifaCero datos
      = (agruparSuma (fun r => r.provincia = "") Registro.provincia
          Registro.totalVentas datos).map
          (fun kv => (kv.1,
            if kv.2 > 0
            then (buscar (agruparSuma (fun r => r.provincia = "") Registro.provincia
                Registro.ventasNetasTarifa0 datos) kv.1).getD 0 / kv.2 * 100
            else 0)) := rfl

theorem isSome_porcentaje (datos : List Registro) (k : String) :
    (buscar (porcentajeVentasTarifaCero datos) k).isSome
      ↔ (¬ k = "" ∧ k ∈ datos.map Registro.provincia) := by
  rw [porcentaje_eq, buscar_isSome_iff, claves_map_reetiqueta, mem_claves_agruparSuma]
  constructor
  · rintro ⟨r, hr, hne, hfk⟩
    exact ⟨hfk ▸ hne, List.mem_map.mpr ⟨r, hr, hfk⟩⟩
  · rintro ⟨hk, hmem⟩
    obtain ⟨r, hr, hfk⟩ := List.mem_map.mp hmem
    exact ⟨r, hr, by rw [hfk]; exact hk, hfk⟩

/-- Claim C6: the zero-rate percentage query sums zero-rate sales and
total sales independently per grouped region and maps each grouped region
to `(zero_sum / total_sum) * 100` when the total sum is nonzero and to `0`
when it is exactly `0` (totals are sums of non-negative cleaned values, so
nonzero means positive); the division is only ever taken at a nonzero
denominator, and the function is total. -/
theorem porcentaje_tarifa_cero_correcto :
    (∀ datos : List Registro, (∀ r ∈ datos, 0 ≤ r.totalVentas) →
      ∀ (k : String) (v : ℚ),
        buscar (porcentajeVentasTarifaCero datos) k = some v →
        v = (if ((datos.filter (fun r => decide (¬ r.provincia = "" ∧ r.provincia = k))).map
                  Registro.totalVentas).sum = 0
             then 0
             else ((datos.filter
                    (fun r => decide (¬ r.provincia = "" ∧ r.provincia = k))).map
                  Registro.ventasNetasTarifa0).sum
               / ((datos.filter
                    (fun r => decide (¬ r.provincia = "" ∧ r.provincia = k))).map
                  Registro.totalVentas).sum * 100)) ∧
    (∀ (datos : List Registro) (k : String),
        ((buscar (porcentajeVentasTarifaCero datos) k).isSome
          ↔ (¬ k = "" ∧ k ∈ datos.map Registro.provincia))) := by
  refine ⟨?_, isSome_porcentaje⟩
  intro datos hnn k v h
  rw [porcentaje_eq, buscar_eq_primerEntrada, primerEntrada_map] at h
  cases hpe : primerEntrada (agruparSuma (fun r => r.provincia = "") Registro.provincia
      Registro.totalVentas datos) k with
  | none =>
      rw [hpe] at h
      simp at h
  | some kv =>
      rw [hpe] at h
      simp only [Option.map_some', Option.some.injEq] at h
      have hk1 : kv.1 = k := primerEntrada_clave _ _ _ hpe
      have hbtot : buscar (agruparSuma (fun r => r.provincia = "") Registro.provincia
          Registro.totalVentas datos) k = some kv.2 := by
        rw [buscar_eq_primerEntrada, hpe]
        rfl
      have htot : kv.2 = ((datos.filter
          (fun r => decide (¬ r.provincia = "" ∧ r.provincia = k))).map
          Registro.totalVentas).sum := by
        have hg := buscar_agruparSuma (fun r => r.provincia = "") Registro.provincia
          Registro.totalVentas datos k
        rw [hbtot] at hg
        simpa using hg
      have hcero : (buscar (agruparSuma (fun r => r.provincia = "") Registro.provincia
          Registro.ventasNetasTarifa0 datos) kv.1).getD 0
          = ((datos.filter (fun r => decide (¬ r.provincia = "" ∧ r.provincia = k))).map
              Registro.ventasNetasTarifa0).sum := by
        rw [hk1]
        exact buscar_agruparSuma _ _ _ _ _
      have hpos : 0 ≤ kv.2 := by
        rw [htot]
        apply List.sum_nonneg
        intro x hx
        obtain ⟨r, hr, rfl⟩ := List.mem_map.mp hx
        exact hnn r (List.mem_of_mem_filter hr)
      rcases eq_or_lt_of_le hpos with heq | hlt
      · rw [← h, ← htot, ← heq]
        simp
      · rw [← h, hcero, ← htot, if_pos hlt, if_neg (ne_of_gt hlt)]

/-- Witness for C6: on the dataset whose only region LOJA has an
unparsable (hence zero) total, the percentage entry is `0`, matching the
zero-total branch of the specification formula. -/
theorem porcentaje_tarifa_cero_correcto_testigo :
    (0 : ℚ) = (if ((datosTarifaCero.filter
            (fun r => decide (¬ r.provincia = "" ∧ r.provincia = "LOJA"))).map
            Registro.totalVentas).sum = 0
        then 0
        else ((datosTarifaCero.filter
            (fun r => decide (¬ r.provincia = "" ∧ r.provincia = "LOJA"))).map
            Registro.ventasNetasTarifa0).sum
          / ((datosTarifaCero.filter
            (fun r => decide (¬ r.provincia = "" ∧ r.provincia = "LOJA"))).map
            Registro.totalVentas).sum * 100) :=
  porcentaje_tarifa_cero_correcto.1 datosTarifaCero (by with_unfolding_all decide)
    "LOJA" 0 (by with_unfolding_all decide)

/-- Claim C10: a record with an empty-string region counts in the region
totals (and is reachable through the single-region query, whose
uppercasing leaves the empty name unchanged), but both the max-imports
query and the zero-rate percentage query exclude it: their groupings never
contain the empty key, and the max-imports result never names it. -/
theorem provincia_vacia_asimetrica :
    (∀ datos : List Registro, ventasPorProvincia datos ""
        = ((datos.filter (fun r => decide (r.provincia = ""))).map
            Registro.totalVentas).sum) ∧
    (∀ datos : List Registro, "" ∈ datos.map Registro.provincia →
        (buscar (ventasTotalesPorProvincia datos) "").isSome) ∧
    (∀ datos : List Registro, buscar (importacionesAgrupadas datos) "" = none) ∧
    (∀ datos : List Registro, ¬ (provinciaConMasImportaciones datos).1 = some "") ∧
    (∀ datos : List Registro, buscar (porcentajeVentasTarifaCero datos) "" = none) := by
  refine ⟨?_, ?_, ?_, ?_, ?_⟩
  · intro datos
    have h : aMayusculas "" = "" := rfl
    rw [ventasPorProvincia, h, getD_ventasTotales]
  · intro datos hmem
    rw [isSome_ventasTotales]
    exact hmem
  · intro datos
    apply Option.not_isSome_iff_eq_none.mp
    rw [buscar_isSome_iff, mem_claves_importacionesAgrupadas]
    rintro ⟨r, hr, hne, hk⟩
    exact hne hk
  · intro datos
    rcases himp : importacionesAgrupadas datos with _ | ⟨kv, resto⟩
    · simp [provinciaConMasImportaciones, himp]
    · rw [provinciaConMasImportaciones, himp]
      intro hsome
      have h1 : (resto.foldl pasoMax kv).1 = "" := Option.some_inj.mp hsome
      have hmem : resto.foldl pasoMax kv ∈ kv :: resto := mejor_mem resto kv
      have hkey : "" ∈ (importacionesAgrupadas datos).map Prod.fst := by
        rw [himp]
        exact h1 ▸ List.mem_map_of_mem Prod.fst hmem
      obtain ⟨r, hr, hne, hk⟩ := (mem_claves_importacionesAgrupadas datos "").mp hkey
      exact hne hk
  · intro datos
    apply Option.not_isSome_iff_eq_none.mp
    rw [isSome_porcentaje]
    rintro ⟨hk, -⟩
    exact hk rfl

/-- Witness for C10: the single empty-region row is visible in the region
totals and reachable through the single-region query, while both excluding
queries ignore it. -/
theorem provincia_vacia_asimetrica_testigo :
    (buscar (ventasTotalesPorProvincia
        ((leerCsv (EntradaCsv.filas ejemploProvinciaVacia)).2)) "").isSome ∧
    ventasPorProvincia ((leerCsv (EntradaCsv.filas ejemploProvinciaVacia)).2) ""
      = ((((leerCsv (EntradaCsv.filas ejemploProvinciaVacia)).2).filter
          (fun r => decide (r.provincia = ""))).map Registro.totalVentas).sum ∧
    buscar (importacionesAgrupadas
        ((leerCsv (EntradaCsv.filas ejemploProvinciaVacia)).2)) "" = none :=
  ⟨provincia_vacia_asimetrica.2.1 _ (by with_unfolding_all decide),
   provincia_vacia_asimetrica.1 _,
   provincia_vacia_asimetrica.2.2.1 _⟩

/-- Witness for C3: AZUAY appears as a key of the worked-example totals
because a record carries it. -/
theorem ventas_totales_por_provincia_correcto_testigo :
    (buscar (ventasTotalesPorProvincia
        ((leerCsv (EntradaCsv.filas ejemploVentas)).2)) "AZUAY").isSome :=
  (ventas_totales_por_provincia_correcto.2.1 _ "AZUAY").mpr
    (by with_unfolding_all decide)
